import Mathlib

/-!
Shallow embedding of the DMAppex backend matching engine (`app.py`).

The engine is pure rule-based scoring: a static platform catalog,
a budget-driven candidate pool, an additive score with bounded random
jitter, canned reasoning strings, and a stable descending sort truncated
to the top three. Randomness (`random.randint(-3, 3)`, one draw per
platform in the pool) is modelled as an explicit jitter assignment
`variance : Nat → Int`, indexed by the platform's position in the pool.
-/

namespace DMAppex

/-- Request body of `POST /api/calculate-matches` (`MatchRequest` in `app.py`).
Priority weights are `Dict[str, float]` in the source; since they are never
consulted by any code path we model the weights as rationals, which loses
nothing for the properties below. -/
structure MatchRequest where
  features : List String
  budget : String
  priorities : List (String × Rat)
  use_case : String
  team_size : String
  monthly_volume : String

/-- The static platform catalog `PLATFORMS` of `app.py`: a mapping from
tier name to the ordered list of platform names. -/
def PLATFORMS (tier : String) : List String :=
  if tier = "enterprise" then ["Synthesia", "HeyGen", "Colossyan", "Hour One", "D-ID"]
  else if tier = "mid_tier" then ["Pictory", "InVideo", "Elai", "Rephrase", "Yepic"]
  else if tier = "budget" then ["Fliki", "Vidnoz", "Steve.ai", "VEED", "Lumen5"]
  else if tier = "specialized" then ["Movio", "DeepBrain", "Avaturn", "Oxolo", "Pipio"]
  else []

/-- Candidate-pool selection, lines 66-71 of `app.py`: the `if/elif/else`
chain on `request.budget` in `calculate_matches`. -/
def platform_pool (budget : String) : List String :=
  if budget = "budget_friendly" then
    PLATFORMS "budget" ++ (PLATFORMS "mid_tier").take 2
  else if budget = "professional" then
    PLATFORMS "mid_tier" ++ (PLATFORMS "enterprise").take 2
  else
    PLATFORMS "enterprise" ++ PLATFORMS "specialized"

/-- Budget-alignment bonus, lines 106-111 of `app.py` (the first `if/elif`
block of `calculate_platform_score`). Note the third branch tests
`request.budget == "enterprise"` literally. -/
def tier_bonus (platform : String) (r : MatchRequest) : Int :=
  if r.budget = "budget_friendly" ∧ platform ∈ PLATFORMS "budget" then 10
  else if r.budget = "professional" ∧ platform ∈ PLATFORMS "mid_tier" then 10
  else if r.budget = "enterprise" ∧ platform ∈ PLATFORMS "enterprise" then 10
  else 0

/-- Use-case alignment bonus, lines 114-122 of `app.py`. -/
def use_case_bonus (platform : String) (r : MatchRequest) : Int :=
  if r.use_case = "marketing" then
    if platform ∈ ["Synthesia", "Pictory", "InVideo", "Promo"] then 8 else 0
  else if r.use_case = "training" then
    if platform ∈ ["Colossyan", "Hour One", "Elai", "DeepBrain"] then 8 else 0
  else if r.use_case = "social" then
    if platform ∈ ["Fliki", "Steve.ai", "VEED", "Lumen5"] then 8 else 0
  else 0

/-- Team-size bonus, lines 125-128 of `app.py`. -/
def team_bonus (platform : String) (r : MatchRequest) : Int :=
  if r.team_size = "large_team" ∧ platform ∈ PLATFORMS "enterprise" then 5
  else if r.team_size = "just_me" ∧ platform ∈ PLATFORMS "budget" then 5
  else 0

/-- Monthly-volume bonus, lines 131-134 of `app.py`. -/
def volume_bonus (platform : String) (r : MatchRequest) : Int :=
  if r.monthly_volume = "50+" ∧ platform ∈ PLATFORMS "enterprise" then 5
  else if r.monthly_volume = "1-10" ∧ platform ∈ PLATFORMS "budget" then 5
  else 0

/-- The deterministic part of `calculate_platform_score`: `base_score`
after all four additive bonus blocks (lines 103-134 of `app.py`). -/
def base_score (platform : String) (r : MatchRequest) : Int :=
  75 + tier_bonus platform r + use_case_bonus platform r
     + team_bonus platform r + volume_bonus platform r

/-- `calculate_platform_score` (lines 101-140): base score plus the jitter
draw, clamped via `min(98, max(60, _))`. The jitter `variance` is the value
of `random.randint(-3, 3)` for this call, made explicit. -/
def calculate_platform_score (platform : String) (r : MatchRequest)
    (variance : Int) : Int :=
  min 98 (max 60 (base_score platform r + variance))

/-- `generate_reasoning` (lines 142-163): builds `reasons` by three
sequential conditional appends, then joins with `". "`. -/
def generate_reasoning (platform : String) (r : MatchRequest) : String :=
  let reasons : List String := []
  let reasons :=
    if platform ∈ PLATFORMS "enterprise" then
      reasons ++ ["Enterprise-grade features with full team collaboration"]
    else if platform ∈ PLATFORMS "mid_tier" then
      reasons ++ ["Balanced features and pricing for growing teams"]
    else if platform ∈ PLATFORMS "budget" then
      reasons ++ ["Cost-effective solution for individual creators"]
    else reasons
  let reasons :=
    if r.use_case = "marketing" then
      reasons ++ ["Strong marketing video capabilities"]
    else if r.use_case = "training" then
      reasons ++ ["Excellent for educational and training content"]
    else if r.use_case = "social" then
      reasons ++ ["Optimized for social media content creation"]
    else reasons
  let reasons :=
    if r.monthly_volume = "50+" then
      reasons ++ ["Handles high-volume production efficiently"]
    else reasons
  String.intercalate ". " reasons

/-- An entry of `scored_platforms` before the consensus label is attached
(lines 77-81 of `app.py`). -/
structure ScoredPlatform where
  name : String
  match_score : Int
  reasoning : String
deriving DecidableEq

/-- An entry of the response's `platforms` list, after the `ai_consensus`
key is added to the top-3 dicts (lines 88-89 of `app.py`). -/
structure RecommendedPlatform where
  name : String
  match_score : Int
  reasoning : String
  ai_consensus : String
deriving DecidableEq

/-- The JSON object returned by `calculate_matches` (lines 91-96). -/
structure MatchResponse where
  platforms : List RecommendedPlatform
  overall_confidence : Int
  total_evaluated : Nat
  synthesis_method : String
deriving DecidableEq

/-- The comparator realised by Python's stable
`sort(key=lambda x: x["match_score"], reverse=True)`: `a` may come before
`b` exactly when `a`'s score is at least `b`'s. -/
def score_ge (a b : ScoredPlatform) : Bool :=
  b.match_score ≤ a.match_score

/-- Attaching the synthetic consensus label (lines 88-89 of `app.py`). -/
def add_consensus (p : ScoredPlatform) : RecommendedPlatform :=
  { name := p.name, match_score := p.match_score, reasoning := p.reasoning,
    ai_consensus :=
      if 90 < p.match_score then "3/3 AIs recommend" else "2/3 AIs recommend" }

/-- The `scored_platforms` list built by the loop in lines 74-81 of
`app.py`: one entry per pool position, with that position's jitter draw. -/
def scored_platforms (r : MatchRequest) (variance : Nat → Int) :
    List ScoredPlatform :=
  (platform_pool r.budget).enum.map fun ip =>
    { name := ip.2,
      match_score := calculate_platform_score ip.2 r (variance ip.1),
      reasoning := generate_reasoning ip.2 r }

/-- The state of `scored_platforms` after the in-place stable descending
sort of line 84 of `app.py`. Python's `list.sort` is a stable sort, so it
produces the same list as stable `mergeSort` under the same comparator. -/
def sorted_platforms (r : MatchRequest) (variance : Nat → Int) :
    List ScoredPlatform :=
  (scored_platforms r variance).mergeSort score_ge

/-- The endpoint body `calculate_matches` (lines 56-96 of `app.py`):
pool selection, scoring, stable descending sort, truncation to three,
consensus labels, and response assembly. -/
def calculate_matches (r : MatchRequest) (variance : Nat → Int) :
    MatchResponse :=
  { platforms := ((sorted_platforms r variance).take 3).map add_consensus,
    overall_confidence := 95,
    total_evaluated := (platform_pool r.budget).length,
    synthesis_method := "3AI-MCP" }

/-! Concrete requests used to instantiate universally quantified theorems. -/

/-- A request with every string field empty: its budget is unrecognized. -/
def req_empty : MatchRequest := ⟨[], "", [], "", "", ""⟩

/-- A request whose budget is literally `enterprise`. -/
def req_enterprise : MatchRequest := ⟨[], "enterprise", [], "", "", ""⟩

/-- The enterprise/training/large-team/high-volume scenario request. -/
def req_training : MatchRequest := ⟨[], "enterprise", [], "training", "large_team", "50+"⟩

/-- A professional/marketing request carrying feature names and priority
weights. -/
def req_A : MatchRequest :=
  ⟨["avatars", "api"], "professional", [("cost", 1/2), ("quality", 9/10)],
   "marketing", "just_me", "1-10"⟩

/-- Same four scoring-relevant fields as `req_A`, but different features
and priorities. -/
def req_B : MatchRequest :=
  ⟨[], "professional", [("speed", 3)], "marketing", "just_me", "1-10"⟩

/-- The all-zero jitter assignment (the deterministic baseline). -/
def zero_variance : Nat → Int := fun _ => 0

/-! Theorems for the claims. -/

/-- C1, counterexample: for the request with empty (unrecognized) budget,
the enterprise platform `Synthesia` is in the candidate pool but its
budget-alignment bonus is 0, not +10, and its pre-jitter score stays at
the base 75 — refuting the claim that every non-`budget_friendly`,
non-`professional` budget grants enterprise platforms the tier-match
bonus. -/
theorem C1_counterexample :
    req_empty.budget ≠ "budget_friendly" ∧ req_empty.budget ≠ "professional" ∧
    "Synthesia" ∈ PLATFORMS "enterprise" ∧
    "Synthesia" ∈ platform_pool req_empty.budget ∧
    tier_bonus "Synthesia" req_empty = 0 ∧
    base_score "Synthesia" req_empty = 75 := by
  decide

/-- C1, amended: the tier-match bonus does not reuse the pool's three-way
mapping; its third branch tests `budget == "enterprise"` literally.
Enterprise platforms get +10 exactly when the budget is the literal string
`enterprise`; any other unrecognized budget value yields a zero tier
bonus even though pool selection treats it as enterprise. -/
theorem C1_tier_bonus_literal (r : MatchRequest) (p : String) :
    (r.budget = "enterprise" → p ∈ PLATFORMS "enterprise" →
      tier_bonus p r = 10) ∧
    (r.budget ≠ "budget_friendly" → r.budget ≠ "professional" →
      r.budget ≠ "enterprise" → tier_bonus p r = 0) := by
  constructor
  · intro hb hp
    simp [tier_bonus, hb, hp]
  · intro h1 h2 h3
    simp [tier_bonus, h1, h2, h3]

/-- C1, witness for the amended theorem at concrete inputs. -/
theorem C1_tier_bonus_literal_witness :
    tier_bonus "Synthesia" req_enterprise = 10 ∧
    tier_bonus "Synthesia" req_empty = 0 :=
  ⟨(C1_tier_bonus_literal req_enterprise "Synthesia").1 rfl (by decide),
   (C1_tier_bonus_literal req_empty "Synthesia").2
     (by decide) (by decide) (by decide)⟩

/-- C2: the candidate pool is exactly the five budget platforms plus the
first two mid-tier ones for `budget_friendly`, the five mid-tier platforms
plus the first two enterprise ones for `professional`, and the five
enterprise plus five specialized platforms for any other budget value —
the unrecognized case falls into the enterprise branch (the pool function
is total, so no validation error is possible). -/
theorem C2_pool_selection (r : MatchRequest) :
    (r.budget = "budget_friendly" →
      platform_pool r.budget =
        ["Fliki", "Vidnoz", "Steve.ai", "VEED", "Lumen5",
         "Pictory", "InVideo"]) ∧
    (r.budget = "professional" →
      platform_pool r.budget =
        ["Pictory", "InVideo", "Elai", "Rephrase", "Yepic",
         "Synthesia", "HeyGen"]) ∧
    (r.budget ≠ "budget_friendly" → r.budget ≠ "professional" →
      platform_pool r.budget =
        ["Synthesia", "HeyGen", "Colossyan", "Hour One", "D-ID",
         "Movio", "DeepBrain", "Avaturn", "Oxolo", "Pipio"]) := by
  refine ⟨fun h => ?_, fun h => ?_, fun h1 h2 => ?_⟩
  · rw [h]; decide
  · rw [h]; decide
  · unfold platform_pool
    rw [if_neg ?_, if_neg ?_]
    · decide
    · exact h2
    · exact h1

/-- C2, witness: the empty-string budget lands in the enterprise branch. -/
theorem C2_pool_selection_witness :
    platform_pool req_empty.budget =
      ["Synthesia", "HeyGen", "Colossyan", "Hour One", "D-ID",
       "Movio", "DeepBrain", "Avaturn", "Oxolo", "Pipio"] :=
  (C2_pool_selection req_empty).2.2 (by decide) (by decide)

/-- C3: for the enterprise/training/large-team/50+ request the pool has
exactly the 10 enterprise-plus-specialized platforms, `Colossyan` and
`Hour One` reach a pre-jitter score of 103, and every jitter in
[-3, 3] leaves their final score clamped at exactly 98. -/
theorem C3_training_scenario (j : Int) (h1 : -3 ≤ j) (h2 : j ≤ 3) :
    (platform_pool req_training.budget).length = 10 ∧
    platform_pool req_training.budget =
      PLATFORMS "enterprise" ++ PLATFORMS "specialized" ∧
    base_score "Colossyan" req_training = 103 ∧
    base_score "Hour One" req_training = 103 ∧
    calculate_platform_score "Colossyan" req_training j = 98 ∧
    calculate_platform_score "Hour One" req_training j = 98 := by
  have hc : base_score "Colossyan" req_training = 103 := by decide
  have hh : base_score "Hour One" req_training = 103 := by decide
  refine ⟨by decide, by decide, hc, hh, ?_, ?_⟩
  · unfold calculate_platform_score; rw [hc]; omega
  · unfold calculate_platform_score; rw [hh]; omega

/-- C3, witness at jitter 0. -/
theorem C3_training_scenario_witness :
    calculate_platform_score "Colossyan" req_training 0 = 98 :=
  (C3_training_scenario 0 (by decide) (by decide)).2.2.2.2.1

/-- C4: for any platform, request and jitter value in [-3, 3], the final
score differs from the deterministic zero-jitter baseline by at most 3
(the clamp is 1-Lipschitz, so the jitter bound survives clamping); the
candidate pool and all bonus components are functions of the request
alone, so they are untouched by the jitter. -/
theorem C4_jitter_bound (p : String) (r : MatchRequest) (j : Int)
    (h1 : -3 ≤ j) (h2 : j ≤ 3) :
    |calculate_platform_score p r j - calculate_platform_score p r 0| ≤ 3 := by
  unfold calculate_platform_score
  rw [abs_le]
  constructor <;> omega

/-- C4, witness at the extreme jitter value 3. -/
theorem C4_jitter_bound_witness :
    |calculate_platform_score "Synthesia" req_empty 3 -
      calculate_platform_score "Synthesia" req_empty 0| ≤ 3 :=
  C4_jitter_bound "Synthesia" req_empty 3 (by decide) (by decide)

/-- The comparator is transitive. -/
theorem score_ge_trans (a b c : ScoredPlatform) :
    score_ge a b = true → score_ge b c = true → score_ge a c = true := by
  simp only [score_ge, decide_eq_true_eq]
  omega

/-- The comparator is total. -/
theorem score_ge_total (a b : ScoredPlatform) :
    (score_ge a b || score_ge b a) = true := by
  simp only [score_ge, Bool.or_eq_true, decide_eq_true_eq]
  omega

/-- C5: the response's platform list is non-increasing in `match_score`,
and the sort is stable: the sorted list is a permutation of the scored
pool, and for every score value the entries carrying that score appear in
the sorted list exactly in their original pool iteration order. -/
theorem C5_sorted_descending_stable (r : MatchRequest) (v : Nat → Int) :
    (calculate_matches r v).platforms.Pairwise
      (fun a b => b.match_score ≤ a.match_score) ∧
    (sorted_platforms r v).Perm (scored_platforms r v) ∧
    ∀ s : Int,
      (sorted_platforms r v).filter (fun q => q.match_score == s) =
      (scored_platforms r v).filter (fun q => q.match_score == s) := by
  have hsorted : (sorted_platforms r v).Pairwise
      (fun a b => b.match_score ≤ a.match_score) := by
    have h := List.sorted_mergeSort score_ge_trans score_ge_total
      (scored_platforms r v)
    exact h.imp (by simp only [score_ge, decide_eq_true_eq]; exact id)
  refine ⟨?_, List.mergeSort_perm _ _, fun s => ?_⟩
  · show (((sorted_platforms r v).take 3).map add_consensus).Pairwise _
    refine List.Pairwise.map add_consensus (fun a b hab => hab) ?_
    exact List.Pairwise.sublist (List.take_sublist 3 _) hsorted
  · set p : ScoredPlatform → Bool := fun q => q.match_score == s with hp
    set l := scored_platforms r v with hl
    have hmemc : ∀ a ∈ l.filter p, p a = true := fun a ha =>
      List.of_mem_filter ha
    have hpw : (l.filter p).Pairwise (fun a b => score_ge a b = true) := by
      refine List.pairwise_of_forall_mem_list (fun a ha b hb => ?_)
      have h1 := hmemc a ha
      have h2 := hmemc b hb
      simp only [hp, beq_iff_eq] at h1 h2
      simp only [score_ge, h1, h2, decide_eq_true_eq, le_refl]
    have hsub : (l.filter p).Sublist (l.mergeSort score_ge) :=
      List.sublist_mergeSort score_ge_trans score_ge_total hpw
        (List.filter_sublist l)
    have hsub2 : (l.filter p).Sublist ((l.mergeSort score_ge).filter p) := by
      have := List.Sublist.filter p hsub
      rwa [List.filter_eq_self.mpr hmemc] at this
    have hlen : ((l.mergeSort score_ge).filter p).length =
        (l.filter p).length :=
      ((List.mergeSort_perm l score_ge).filter p).length_eq
    exact (hsub2.eq_of_length hlen.symm).symm

/-- C6: the response contains at most three platform entries, and every
entry's match score lies in the closed interval [60, 98]. -/
theorem C6_response_bounds (r : MatchRequest) (v : Nat → Int) :
    (calculate_matches r v).platforms.length ≤ 3 ∧
    ∀ q ∈ (calculate_matches r v).platforms,
      60 ≤ q.match_score ∧ q.match_score ≤ 98 := by
  constructor
  · show (((sorted_platforms r v).take 3).map add_consensus).length ≤ 3
    rw [List.length_map, List.length_take]
    omega
  · intro q hq
    obtain ⟨w, hw, rfl⟩ := List.mem_map.1 hq
    have hw2 : w ∈ scored_platforms r v := by
      have := List.mem_of_mem_take hw
      rwa [sorted_platforms, List.mem_mergeSort] at this
    obtain ⟨ip, _, rfl⟩ := List.mem_map.1 hw2
    show 60 ≤ calculate_platform_score ip.2 r (v ip.1) ∧
      calculate_platform_score ip.2 r (v ip.1) ≤ 98
    unfold calculate_platform_score
    omega

/-- The top recommendation for the all-empty request under zero jitter. -/
def synthesia_entry : RecommendedPlatform :=
  ⟨"Synthesia", 75, "Enterprise-grade features with full team collaboration",
   "2/3 AIs recommend"⟩

/-- C6, witness: a concrete entry of a concrete response lies in range. -/
theorem C6_response_bounds_witness :
    synthesia_entry ∈ (calculate_matches req_empty zero_variance).platforms ∧
    60 ≤ synthesia_entry.match_score ∧ synthesia_entry.match_score ≤ 98 := by
  have hmem : synthesia_entry ∈
      (calculate_matches req_empty zero_variance).platforms := by
    show _ ∈ ((sorted_platforms req_empty zero_variance).take 3).map add_consensus
    rw [sorted_platforms, List.mergeSort_of_sorted (by decide)]
    decide
  exact ⟨hmem, (C6_response_bounds req_empty zero_variance).2 _ hmem⟩

/-- C7: `total_evaluated` is the length of the full candidate pool before
truncation: 7 for `budget_friendly`, 7 for `professional`, and 10 for any
other budget value. -/
theorem C7_total_evaluated (r : MatchRequest) (v : Nat → Int) :
    (calculate_matches r v).total_evaluated = (platform_pool r.budget).length ∧
    (r.budget = "budget_friendly" →
      (calculate_matches r v).total_evaluated = 7) ∧
    (r.budget = "professional" →
      (calculate_matches r v).total_evaluated = 7) ∧
    (r.budget ≠ "budget_friendly" → r.budget ≠ "professional" →
      (calculate_matches r v).total_evaluated = 10) := by
  refine ⟨rfl, fun h => ?_, fun h => ?_, fun h1 h2 => ?_⟩
  · show (platform_pool r.budget).length = 7
    rw [h]; decide
  · show (platform_pool r.budget).length = 7
    rw [h]; decide
  · show (platform_pool r.budget).length = 10
    unfold platform_pool
    rw [if_neg ?_, if_neg ?_]
    · decide
    · exact h2
    · exact h1

/-- C7, witness: the unrecognized empty budget evaluates 10 platforms. -/
theorem C7_total_evaluated_witness :
    (calculate_matches req_empty zero_variance).total_evaluated = 10 :=
  (C7_total_evaluated req_empty zero_variance).2.2.2 (by decide) (by decide)

/-- Modelled from the spec's decomposition of the reasoning string: the
tier fragment contributed by the first `if/elif` block of
`generate_reasoning` (specialized platforms contribute nothing). -/
def tier_fragment (platform : String) : List String :=
  if platform ∈ PLATFORMS "enterprise" then
    ["Enterprise-grade features with full team collaboration"]
  else if platform ∈ PLATFORMS "mid_tier" then
    ["Balanced features and pricing for growing teams"]
  else if platform ∈ PLATFORMS "budget" then
    ["Cost-effective solution for individual creators"]
  else []

/-- The use-case fragment contributed by the second block of
`generate_reasoning`. -/
def use_case_fragment (r : MatchRequest) : List String :=
  if r.use_case = "marketing" then ["Strong marketing video capabilities"]
  else if r.use_case = "training" then
    ["Excellent for educational and training content"]
  else if r.use_case = "social" then
    ["Optimized for social media content creation"]
  else []

/-- The high-volume fragment contributed by the last block of
`generate_reasoning`. -/
def volume_fragment (r : MatchRequest) : List String :=
  if r.monthly_volume = "50+" then
    ["Handles high-volume production efficiently"]
  else []

/-- C8: the reasoning string is the `". "`-join of the tier fragment, the
use-case fragment and the high-volume fragment in that fixed order;
specialized-tier platforms contribute no tier fragment; and a specialized
platform under a request with an unknown use case and non-`50+` volume
yields the empty string. -/
theorem C8_reasoning_structure (p : String) (r : MatchRequest) :
    (generate_reasoning p r =
      String.intercalate ". "
        (tier_fragment p ++ use_case_fragment r ++ volume_fragment r)) ∧
    (p ∈ PLATFORMS "specialized" → tier_fragment p = []) ∧
    (p ∈ PLATFORMS "specialized" → r.use_case ≠ "marketing" →
      r.use_case ≠ "training" → r.use_case ≠ "social" →
      r.monthly_volume ≠ "50+" → generate_reasoning p r = "") := by
  have hmain : generate_reasoning p r =
      String.intercalate ". "
        (tier_fragment p ++ use_case_fragment r ++ volume_fragment r) := by
    simp only [generate_reasoning, tier_fragment, use_case_fragment,
      volume_fragment]
    split_ifs <;> simp
  have hspec : p ∈ PLATFORMS "specialized" → tier_fragment p = [] := by
    intro hp
    have hp' : p = "Movio" ∨ p = "DeepBrain" ∨ p = "Avaturn" ∨
        p = "Oxolo" ∨ p = "Pipio" := by
      simpa [PLATFORMS] using hp
    rcases hp' with rfl | rfl | rfl | rfl | rfl <;> decide
  refine ⟨hmain, hspec, fun hp h1 h2 h3 h4 => ?_⟩
  rw [hmain, hspec hp]
  have hu : use_case_fragment r = [] := by
    simp [use_case_fragment, h1, h2, h3]
  have hv : volume_fragment r = [] := by
    simp [volume_fragment, h4]
  rw [hu, hv]
  rfl

/-- C8, witness: the specialized platform `Movio` under the all-empty
request gets an empty reasoning string. -/
theorem C8_reasoning_structure_witness :
    generate_reasoning "Movio" req_empty = "" :=
  (C8_reasoning_structure "Movio" req_empty).2.2
    (by decide) (by decide) (by decide) (by decide) (by decide)

/-- C9: two requests agreeing on budget, use case, team size and monthly
volume produce identical responses under the same jitter draws, whatever
their `features` lists and `priorities` mappings are — neither field is
ever consulted. -/
theorem C9_features_priorities_unused (r1 r2 : MatchRequest) (v : Nat → Int)
    (hb : r1.budget = r2.budget) (hu : r1.use_case = r2.use_case)
    (ht : r1.team_size = r2.team_size)
    (hm : r1.monthly_volume = r2.monthly_volume) :
    calculate_matches r1 v = calculate_matches r2 v := by
  obtain ⟨f1, b1, p1, u1, t1, m1⟩ := r1
  obtain ⟨f2, b2, p2, u2, t2, m2⟩ := r2
  dsimp only at hb hu ht hm
  subst hb hu ht hm
  rfl

/-- C9, witness: two concrete requests differing only in features and
priorities yield identical responses. -/
theorem C9_features_priorities_unused_witness :
    calculate_matches req_A zero_variance =
      calculate_matches req_B zero_variance :=
  C9_features_priorities_unused req_A req_B zero_variance rfl rfl rfl rfl

/-- Shared helper: the response list's length is the pool length capped
at three. -/
theorem platforms_length_eq (r : MatchRequest) (v : Nat → Int) :
    (calculate_matches r v).platforms.length =
      min 3 (platform_pool r.budget).length := by
  show (((sorted_platforms r v).take 3).map add_consensus).length = _
  rw [List.length_map, List.length_take, sorted_platforms,
    List.length_mergeSort, scored_platforms, List.length_map,
    List.enum_length]

/-- C10: the candidate pool never contains duplicate names and has length
7 or 10, so the response always holds exactly three entries — the
"fewer than three" case is unreachable with the static catalog. -/
theorem C10_pool_nodup_exactly_three (r : MatchRequest) (v : Nat → Int) :
    (platform_pool r.budget).Nodup ∧
    ((platform_pool r.budget).length = 7 ∨
      (platform_pool r.budget).length = 10) ∧
    (calculate_matches r v).platforms.length = 3 := by
  have hpool : platform_pool r.budget =
      PLATFORMS "budget" ++ (PLATFORMS "mid_tier").take 2 ∨
      platform_pool r.budget =
        PLATFORMS "mid_tier" ++ (PLATFORMS "enterprise").take 2 ∨
      platform_pool r.budget =
        PLATFORMS "enterprise" ++ PLATFORMS "specialized" := by
    unfold platform_pool
    split_ifs with h1 h2
    · exact Or.inl rfl
    · exact Or.inr (Or.inl rfl)
    · exact Or.inr (Or.inr rfl)
  rcases hpool with hp | hp | hp <;>
    rw [platforms_length_eq, hp] <;>
    refine ⟨by decide, by decide, by decide⟩

end DMAppex
